import Mathlib

/-!
Verification of the Shopee product-authenticity checker (`app.py`) against its
natural-language specification.

The Python program is shallowly embedded here.  External effects are modelled
as explicit oracle parameters:

* the filesystem under `reference_images/` is a `List FsEntry`; because the
  code re-reads the directory on every judge invocation, the batch loop takes
  a function `fsAt : Nat → List FsEntry` giving the snapshot observed by the
  k-th invocation;
* the vision-judgment service is a `JudgeOutcome` (either a response text or a
  raised exception), supplied per invocation as `svcAt : Nat → JudgeOutcome`;
* the two HTTP GETs (cookie bootstrap and product-detail API) each yield an
  `HttpOutcome`: a response, a timeout exception, or a generic request
  exception — mirroring the `except requests.Timeout` / `except
  requests.RequestException` handlers;
* JSON bodies are `Json` trees of string-keyed objects and string arrays
  (the shapes relevant to `data.product_info.images`); `Json.dictGet`
  mirrors Python's `dict.get(key, default)`, returning `none` when Python
  would raise `AttributeError` (`.get` on a non-dict);
* Python `float` confidences 0.0 / 1.0 are the exact rationals 0 and 1;
* Python's `str.strip()` / `str.lower()` are modelled on `List Char` with
  ASCII whitespace/case (the extension literals and verdict tokens compared
  against are all ASCII), and the regex `\d` is modelled as ASCII digits.
-/

set_option maxRecDepth 16384

/-- Python `s.strip()` (line 81 / line 91 of app.py): drop whitespace from
both ends of the string. -/
def pyStrip (s : String) : String :=
  (((s.data.dropWhile Char.isWhitespace).reverse.dropWhile Char.isWhitespace).reverse).asString

/-- Python `s.lower()` on a filename (line 30 of app.py), as a char list. -/
def pyLower (s : String) : List Char :=
  s.data.map Char.toLower

/-- Line 30 of app.py: `img_file.lower().endswith(('.png', '.jpg', '.jpeg'))`. -/
def isImage (img_file : String) : Bool :=
  List.isSuffixOf ".png".data (pyLower img_file) ||
  List.isSuffixOf ".jpg".data (pyLower img_file) ||
  List.isSuffixOf ".jpeg".data (pyLower img_file)

/-- One entry of the `reference_images` root directory: either a subdirectory
(with its own file listing, in `os.listdir` order) or a plain file. -/
inductive FsEntry where
  | dir (name : String) (files : List String)
  | file (name : String)
deriving DecidableEq

/-- `os.path.join(REFERENCE_IMAGES_DIR, category, img_file)` (lines 26/31). -/
def refPath (category img_file : String) : String :=
  "reference_images/" ++ category ++ "/" ++ img_file

/-- `load_reference_images` (lines 22-33 of app.py): each immediate
subdirectory of the root becomes a category; within it, exactly the files
passing the extension test are kept, as joined paths, preserving listing
order.  Non-directory root entries are skipped.  The resulting Python dict
(insertion-ordered, unique keys) is modelled as an association list. -/
def load_reference_images (root : List FsEntry) : List (String × List String) :=
  root.filterMap fun e =>
    match e with
    | .file _ => none
    | .dir category files =>
        some (category, (files.filter isImage).map (refPath category))

/-- The outcome of one call to the vision-judgment service
(`client.chat.completions.create`, line 75): either the response text
(`response.choices[0].message.content`) or a raised exception. -/
inductive JudgeOutcome where
  | response (text : String)
  | exception (msg : String)
deriving DecidableEq

/-- `compare_with_reference` (lines 35-88 of app.py), for one candidate image.
`fs` is the reference-store snapshot seen by this invocation's
`load_reference_images()` call (line 37); `svc` the judgment-service outcome.
The first component of the result is `classification_result` (the raw trimmed
response text, or one of the two error strings), the second `confidence`. -/
def compare_with_reference (fs : List FsEntry) (image_url : String)
    (product_category : String) (svc : JudgeOutcome) : String × Rat :=
  let reference_images := ((load_reference_images fs).lookup product_category).getD []
  if reference_images.isEmpty then
    ("Error: No reference images found for this category", 0)
  else
    match svc with
    | .exception _ => ("Error", 0)
    | .response t =>
        let result := pyStrip t
        (result, if result = "Pass" then 1 else 0)

/-- One attempt of the regex `i\.(\d+)\.(\d+)` (line 95) anchored at the head
of `l`: literal `i`, literal `.`, a maximal nonempty digit run, literal `.`,
a maximal nonempty digit run.  Greediness needs no backtracking here because
digits and `.` are disjoint character classes. -/
def matchAt : List Char → Option (String × String)
  | c1 :: c2 :: rest =>
    if c1 = 'i' ∧ c2 = '.' then
      if rest.takeWhile Char.isDigit = [] then none
      else
        match rest.dropWhile Char.isDigit with
        | c3 :: rest2 =>
          if c3 = '.' then
            if rest2.takeWhile Char.isDigit = [] then none
            else some ((rest.takeWhile Char.isDigit).asString,
                       (rest2.takeWhile Char.isDigit).asString)
          else none
        | [] => none
    else none
  | _ => none

/-- `re.search` semantics for the pattern above: try each start position from
the left, returning the first success. -/
def searchShopee : List Char → Option (String × String)
  | [] => none
  | c :: cs =>
    match matchAt (c :: cs) with
    | some p => some p
    | none => searchShopee cs

/-- Lines 91-99 of app.py: the URL-validation prefix of
`scrape_shopee_reviews`.  `not product_url or not product_url.strip()` rejects
empty/blank input; then `re.search(r'i\.(\d+)\.(\d+)', product_url)` must
find a match, whose groups become `(shop_id, item_id)`. -/
def parseListingUrl (product_url : String) : Except String (String × String) :=
  if product_url = "" ∨ pyStrip product_url = "" then
    .error "Error: Product URL is required."
  else
    match searchShopee product_url.data with
    | none => .error "Error: Invalid Shopee URL format. Please try again."
    | some p => .ok p

/-- JSON values as far as this program inspects them: string-keyed objects
and arrays of (opaque image-identifier) strings. -/
inductive Json where
  | obj (fields : List (String × Json))
  | arr (items : List String)

/-- Python `value.get(key, dflt)` (line 139).  On an object it returns the
field's value, or `dflt` when the key is absent.  On an array Python raises
`AttributeError` (lists have no `.get`), which no handler in the program
catches; that uncaught-exception case is `none`. -/
def Json.dictGet : Json → String → Json → Option Json
  | .obj fields, key, dflt => some ((fields.lookup key).getD dflt)
  | .arr _, _, _ => none

/-- Line 139 of app.py:
`product_data.get('data', {}).get('product_info', {}).get('images', [])`.
`none` marks runs outside the modelled universe (an uncaught Python
exception, or iteration over a non-array `images` value). -/
def extract_images (product_data : Json) : Option (List String) := do
  let d ← product_data.dictGet "data" (Json.obj [])
  let pinfo ← d.dictGet "product_info" (Json.obj [])
  let imgs ← pinfo.dictGet "images" (Json.arr [])
  match imgs with
  | .arr xs => some xs
  | .obj [] => some []
  | .obj (_ :: _) => none

/-- The outcome of one `session.get(...)` call: a response of type `α`, a
raised `requests.Timeout`, or another raised `requests.RequestException`
(in app.py the two are caught separately at lines 178-181; `Timeout`
subclasses `RequestException` but is listed first, so it takes the first
handler). -/
inductive HttpOutcome (α : Type) where
  | ok (response : α)
  | timeout
  | requestError (msg : String)

/-- Line 146 of app.py: `f"https://cf.shopee.co.id/file/{img_id}"`. -/
def cdnUrl (img_id : String) : String :=
  "https://cf.shopee.co.id/file/" ++ img_id

/-- One row of `results` (lines 148-152): the dict
`{'image_url': ..., 'classification': ..., 'confidence': ...}`. -/
structure Row where
  image_url : String
  classification : String
  confidence : Rat
deriving DecidableEq

/-- The body of one iteration of the loop at lines 145-152: build the CDN
URL, run `compare_with_reference` against the reference-store snapshot `fs`
and service outcome `svc`, and record the row. -/
def mkRow (fs : List FsEntry) (cat : String) (svc : JudgeOutcome)
    (img_id : String) : Row :=
  let image_url := cdnUrl img_id
  let r := compare_with_reference fs image_url cat svc
  { image_url := image_url, classification := r.1, confidence := r.2 }

/-- The loop at lines 145-152 of app.py, judging each image in order.  `k`
counts judge invocations so far: the k-th invocation re-reads the reference
store (`fsAt k`, because line 37 calls `load_reference_images()` afresh) and
consumes the k-th service outcome (`svcAt k`). -/
def judgeAll (cat : String) (fsAt : Nat → List FsEntry)
    (svcAt : Nat → JudgeOutcome) : Nat → List String → List Row
  | _, [] => []
  | k, img_id :: rest =>
      mkRow (fsAt k) cat (svcAt k) img_id :: judgeAll cat fsAt svcAt (k + 1) rest

/-- The summary f-string at lines 167-174 of app.py. -/
def mkSummary (total_images pass_count : Nat) : String :=
  "\n        Authenticity Check Results:\n        Total Images Analyzed: " ++
  toString total_images ++
  "\n        Appears Authentic: " ++ toString pass_count ++
  "\n        Potentially Counterfeit: " ++ toString (total_images - pass_count) ++
  "\n        \n        Detailed results saved to authenticity_check.csv\n        "

/-- `scrape_shopee_reviews` (lines 90-181 of app.py).  `boot` is the outcome
of the cookie-bootstrap GET on the human-facing listing page (line 126,
response discarded), `api` that of the product-detail API GET (line 129).
Both sit inside the same `try`, whose `except` clauses produce the timeout /
request-error returns.  The overall result is `(result_text, sample_image
URL)`; `none` marks a run leaving the modelled universe (uncaught
exception).  The CSV write (lines 154-163) is a side effect on the rows
already captured in `judgeAll` and carries no extra information. -/
def scrape_shopee_reviews (product_url product_category : String)
    (boot : HttpOutcome (Nat × String)) (api : HttpOutcome (Nat × Json))
    (fsAt : Nat → List FsEntry) (svcAt : Nat → JudgeOutcome) :
    Option (String × Option String) :=
  match parseListingUrl product_url with
  | .error msg => some (msg, none)
  | .ok _ids =>
    match boot with
    | .timeout => some ("Error: Request timed out. Please try again.", none)
    | .requestError e => some ("Error: Failed to fetch data: " ++ e, none)
    | .ok _ =>
      match api with
      | .timeout => some ("Error: Request timed out. Please try again.", none)
      | .requestError e => some ("Error: Failed to fetch data: " ++ e, none)
      | .ok (status, product_data) =>
        if status ≠ 200 then
          some ("Error: Failed to fetch product data (HTTP " ++ toString status ++ ").", none)
        else
          match extract_images product_data with
          | none => none
          | some [] => some ("Error: No product images found.", none)
          | some (first :: rest) =>
            let results := judgeAll product_category fsAt svcAt 0 (first :: rest)
            let pass_count :=
              (results.filter (fun r => r.classification == "Pass")).length
            let total_images := results.length
            some (mkSummary total_images pass_count, some (cdnUrl first))

/-- Modelled from the spec: the judge step as §3/§4.4 describe it when the
category→reference-images mapping has been "populated at startup by scanning
the reference store" and is "immutable during a run" — it consults a fixed
mapping `refMap` instead of re-scanning the filesystem. -/
def judgeSpecStartup (refMap : List (String × List String)) (cat : String)
    (svc : JudgeOutcome) : String × Rat :=
  let reference_images := (refMap.lookup cat).getD []
  if reference_images.isEmpty then
    ("Error: No reference images found for this category", 0)
  else
    match svc with
    | .exception _ => ("Error", 0)
    | .response t =>
        let result := pyStrip t
        (result, if result = "Pass" then 1 else 0)

/-- Modelled from the spec: the batch loop under the once-at-startup mapping
lifecycle of §3 — every judge invocation observes the same mapping `refMap`,
with no re-scan between images. -/
def judgeAll_startupModel (cat : String) (refMap : List (String × List String))
    (svcAt : Nat → JudgeOutcome) : Nat → List String → List Row
  | _, [] => []
  | k, img_id :: rest =>
      (let image_url := cdnUrl img_id
       let r := judgeSpecStartup refMap cat (svcAt k)
       { image_url := image_url, classification := r.1, confidence := r.2 : Row }) ::
      judgeAll_startupModel cat refMap svcAt (k + 1) rest

/-- `l` contains an occurrence of the pattern `i.<digits>.<digits>` with
group contents `d1`, `d2`. -/
def occursAt (l d1 d2 : List Char) : Prop :=
  ∃ pre post, l = pre ++ 'i' :: '.' :: (d1 ++ '.' :: (d2 ++ post)) ∧
    d1 ≠ [] ∧ d2 ≠ [] ∧ (∀ c ∈ d1, c.isDigit = true) ∧ (∀ c ∈ d2, c.isDigit = true)

/-! ### Helper lemmas -/

theorem takeWhile_append_all {p : Char → Bool} :
    ∀ (l r : List Char), (∀ c ∈ l, p c = true) →
      (∀ c, r.head? = some c → p c = false) →
      (l ++ r).takeWhile p = l ∧ (l ++ r).dropWhile p = r := by
  intro l
  induction l with
  | nil =>
    intro r _ hr
    cases r with
    | nil => simp
    | cons c t =>
      have hc : p c = false := hr c rfl
      simp [List.takeWhile_cons, List.dropWhile_cons, hc]
  | cons a l ih =>
    intro r hl hr
    have ha : p a = true := hl a (List.mem_cons_self a l)
    have := ih r (fun c hc => hl c (List.mem_cons_of_mem a hc)) hr
    simp [List.takeWhile_cons, List.dropWhile_cons, ha, this.1, this.2]

theorem mem_of_takeWhile {p : Char → Bool} {l : List Char} {c : Char}
    (h : c ∈ l.takeWhile p) : p c = true :=
  List.mem_takeWhile_imp h

theorem data_asString (l : List Char) : (List.asString l).data = l := rfl

theorem matchAt_sound {l : List Char} {s1 s2 : String}
    (h : matchAt l = some (s1, s2)) :
    s1.data ≠ [] ∧ s2.data ≠ [] ∧ (∀ c ∈ s1.data, c.isDigit = true) ∧
    (∀ c ∈ s2.data, c.isDigit = true) ∧
    ∃ post, l = 'i' :: '.' :: (s1.data ++ '.' :: (s2.data ++ post)) := by
  match l with
  | [] => simp [matchAt] at h
  | [c1] => simp [matchAt] at h
  | c1 :: c2 :: rest =>
    simp only [matchAt] at h
    split at h
    case isFalse => exact absurd h (by simp)
    case isTrue hc =>
      obtain ⟨hc1, hc2⟩ := hc
      subst hc1; subst hc2
      split at h
      case isTrue => exact absurd h (by simp)
      case isFalse hd1 =>
        split at h
        case h_2 hr1 => exact absurd h (by simp)
        case h_1 c3 rest2 hr1 =>
          split at h
          case isFalse => exact absurd h (by simp)
          case isTrue hc3 =>
            subst hc3
            split at h
            case isTrue => exact absurd h (by simp)
            case isFalse hd2 =>
              rw [Option.some.injEq, Prod.mk.injEq] at h
              obtain ⟨h1, h2⟩ := h
              subst h1
              subst h2
              refine ⟨?_, ?_, ?_, ?_, rest2.dropWhile Char.isDigit, ?_⟩
              · rw [data_asString]; exact hd1
              · rw [data_asString]; exact hd2
              · rw [data_asString]
                intro c hcmem
                exact mem_of_takeWhile hcmem
              · rw [data_asString]
                intro c hcmem
                exact mem_of_takeWhile hcmem
              · rw [data_asString, data_asString]
                have hrest : rest = rest.takeWhile Char.isDigit ++ ('.' :: rest2) := by
                  conv_lhs => rw [← List.takeWhile_append_dropWhile Char.isDigit rest, hr1]
                have hrest2 : rest2 = rest2.takeWhile Char.isDigit ++ rest2.dropWhile Char.isDigit :=
                  (List.takeWhile_append_dropWhile Char.isDigit rest2).symm
                conv_lhs => rw [hrest, hrest2]

theorem matchAt_complete {d1 d2 : List Char} (post : List Char) (h1 : d1 ≠ []) (h2 : d2 ≠ [])
    (hd1 : ∀ c ∈ d1, c.isDigit = true) (hd2 : ∀ c ∈ d2, c.isDigit = true) :
    ∃ s1 s2, matchAt ('i' :: '.' :: (d1 ++ '.' :: (d2 ++ post))) = some (s1, s2) := by
  have hdot : ∀ c : Char, (('.' :: (d2 ++ post)).head? = some c) → c.isDigit = false := by
    intro c hc
    cases Option.some.inj hc
    decide
  have hspan := takeWhile_append_all d1 ('.' :: (d2 ++ post)) hd1 hdot
  obtain ⟨c, t, rfl⟩ : ∃ c t, d2 = c :: t := by
    cases d2 with
    | nil => exact absurd rfl h2
    | cons c t => exact ⟨c, t, rfl⟩
  have hcdig : c.isDigit = true := hd2 c (List.mem_cons_self c t)
  have htk : ((c :: t) ++ post).takeWhile Char.isDigit ≠ [] := by
    simp [List.takeWhile_cons, hcdig]
  refine ⟨d1.asString, (((c :: t) ++ post).takeWhile Char.isDigit).asString, ?_⟩
  simp only [matchAt, hspan.1, hspan.2]
  simp [h1, htk, hcdig]

theorem searchShopee_sound {l : List Char} {p : String × String}
    (h : searchShopee l = some p) : ∃ i, matchAt (l.drop i) = some p := by
  induction l with
  | nil => simp [searchShopee] at h
  | cons c cs ih =>
    simp only [searchShopee] at h
    split at h
    case h_1 q hq => exact ⟨0, by simpa [hq] using h⟩
    case h_2 hq =>
      obtain ⟨i, hi⟩ := ih h
      exact ⟨i + 1, by simpa using hi⟩

theorem searchShopee_complete {p : String × String} :
    ∀ (i : Nat) (l : List Char), matchAt (l.drop i) = some p →
      ∃ q, searchShopee l = some q := by
  intro i
  induction i with
  | zero =>
    intro l h
    cases l with
    | nil => simp [matchAt] at h
    | cons c cs =>
      refine ⟨p, ?_⟩
      simp only [searchShopee]
      rw [List.drop_zero] at h
      rw [h]
  | succ i ih =>
    intro l h
    cases l with
    | nil => simp [matchAt] at h
    | cons c cs =>
      rw [List.drop_succ_cons] at h
      obtain ⟨q, hq⟩ := ih cs h
      cases hm : matchAt (c :: cs) with
      | some r =>
        refine ⟨r, ?_⟩
        simp only [searchShopee, hm]
      | none =>
        refine ⟨q, ?_⟩
        simp only [searchShopee, hm]
        exact hq

theorem mem_dropWhile_of_not {p : Char → Bool} :
    ∀ {l : List Char} {c : Char}, c ∈ l → p c = false → c ∈ l.dropWhile p := by
  intro l
  induction l with
  | nil => intro c hc _; exact absurd hc (List.not_mem_nil c)
  | cons a t ih =>
    intro c hc hpc
    by_cases hpa : p a
    · rw [List.dropWhile_cons_of_pos hpa]
      rcases List.mem_cons.mp hc with rfl | hct
      · rw [hpa] at hpc; exact absurd hpc (by simp)
      · exact ih hct hpc
    · rw [List.dropWhile_cons_of_neg hpa]
      exact hc

theorem asString_eq_empty {l : List Char} (h : List.asString l = "") : l = [] := by
  have h2 := congrArg String.data h
  rw [data_asString] at h2
  exact h2

theorem pyStrip_ne_empty {s : String} {c : Char} (hc : c ∈ s.data)
    (hw : c.isWhitespace = false) : pyStrip s ≠ "" := by
  intro hcontra
  have h1 : c ∈ s.data.dropWhile Char.isWhitespace := mem_dropWhile_of_not hc hw
  have h2 : c ∈ (s.data.dropWhile Char.isWhitespace).reverse := List.mem_reverse.mpr h1
  have h3 : c ∈ (s.data.dropWhile Char.isWhitespace).reverse.dropWhile Char.isWhitespace :=
    mem_dropWhile_of_not h2 hw
  have h4 : c ∈ ((s.data.dropWhile Char.isWhitespace).reverse.dropWhile Char.isWhitespace).reverse :=
    List.mem_reverse.mpr h3
  have h5 := asString_eq_empty hcontra
  rw [h5] at h4
  exact absurd h4 (List.not_mem_nil c)

theorem judgeAll_length (cat : String) (fsAt : Nat → List FsEntry)
    (svcAt : Nat → JudgeOutcome) :
    ∀ (k : Nat) (images : List String),
      (judgeAll cat fsAt svcAt k images).length = images.length := by
  intro k images
  induction images generalizing k with
  | nil => rfl
  | cons x xs ih => simp [judgeAll, ih]

theorem judgeAll_getD (cat : String) (fsAt : Nat → List FsEntry)
    (svcAt : Nat → JudgeOutcome) (d : Row) :
    ∀ (images : List String) (k j : Nat), j < images.length →
      (judgeAll cat fsAt svcAt k images).getD j d =
        mkRow (fsAt (k + j)) cat (svcAt (k + j)) (images.getD j "") := by
  intro images
  induction images with
  | nil => intro k j hj; exact absurd hj (by simp)
  | cons x xs ih =>
    intro k j hj
    cases j with
    | zero => simp [judgeAll]
    | succ j =>
      have hj2 : j < xs.length := Nat.lt_of_succ_lt_succ hj
      have harith : k + (j + 1) = (k + 1) + j := by omega
      simp only [judgeAll, List.getD_cons_succ, harith]
      exact ih (k + 1) j hj2

theorem length_filter_add_length_not {α : Type} (p : α → Bool) (l : List α) :
    (l.filter p).length + (l.filter (fun a => !(p a))).length = l.length := by
  induction l with
  | nil => rfl
  | cons a t ih =>
    cases hp : p a with
    | true =>
      simp [List.filter_cons, hp]
      omega
    | false =>
      simp [List.filter_cons, hp]
      omega

theorem judgeAll_startup_eq (cat : String) (fs : List FsEntry)
    (svcAt : Nat → JudgeOutcome) :
    ∀ (k : Nat) (images : List String),
      judgeAll cat (fun _ => fs) svcAt k images =
        judgeAll_startupModel cat (load_reference_images fs) svcAt k images := by
  intro k images
  induction images generalizing k with
  | nil => rfl
  | cons x xs ih =>
    simp only [judgeAll, judgeAll_startupModel]
    rw [ih (k + 1)]
    rfl

theorem searchShopee_leftmost {p : String × String} :
    ∀ (i : Nat) (l : List Char), matchAt (l.drop i) = some p →
      (∀ j, j < i → matchAt (l.drop j) = none) →
      searchShopee l = some p := by
  intro i
  induction i with
  | zero =>
    intro l h _
    cases l with
    | nil => simp [matchAt] at h
    | cons c cs =>
      simp only [searchShopee]
      rw [List.drop_zero] at h
      rw [h]
  | succ i ih =>
    intro l h hmin
    cases l with
    | nil => simp [matchAt] at h
    | cons c cs =>
      have h0 : matchAt (c :: cs) = none := by
        simpa using hmin 0 (Nat.succ_pos i)
      simp only [searchShopee, h0]
      rw [List.drop_succ_cons] at h
      exact ih cs h (fun j hj => by
        have := hmin (j + 1) (Nat.succ_lt_succ hj)
        simpa using this)

/-! ### Claim theorems -/

/-- C1: when the category has reference images, the judge returns verdict
`Pass` with confidence 1.0 exactly when the judgment service's trimmed
response is the string `"Pass"`; any other trimmed response (empty,
`"Not Pass"`, or unexpected text) is returned as a non-`Pass` verdict with
confidence 0.0.  (The code carries the verdict as the trimmed response text
itself; `NotPass` is represented by any text other than `"Pass"`.) -/
theorem claim_C1_judge_verdict_mapping (fs : List FsEntry)
    (image_url product_category t : String)
    (href : ((load_reference_images fs).lookup product_category).getD [] ≠ []) :
    (compare_with_reference fs image_url product_category (JudgeOutcome.response t) =
        ("Pass", 1) ↔ pyStrip t = "Pass") ∧
    (pyStrip t ≠ "Pass" →
      compare_with_reference fs image_url product_category (JudgeOutcome.response t) =
        (pyStrip t, 0)) := by
  have hni : ¬(((load_reference_images fs).lookup product_category).getD []).isEmpty = true := by
    simpa [List.isEmpty_iff] using href
  constructor
  · constructor
    · intro h
      simp only [compare_with_reference, if_neg hni] at h
      by_cases hp : pyStrip t = "Pass"
      · exact hp
      · rw [if_neg hp] at h
        exact absurd (congrArg Prod.fst h) hp
    · intro h
      simp only [compare_with_reference, if_neg hni]
      rw [h]
      simp
  · intro h
    simp only [compare_with_reference, if_neg hni]
    rw [if_neg h]

/-- Witness for C1 at concrete inputs: response `" Pass "` trims to `"Pass"`
and yields `("Pass", 1)`; response `"Not Pass"` yields `("Not Pass", 0)`. -/
theorem claim_C1_witness :
    compare_with_reference [FsEntry.dir "bags" ["ref.jpg"]] "u" "bags"
        (JudgeOutcome.response " Pass ") = ("Pass", 1) ∧
    compare_with_reference [FsEntry.dir "bags" ["ref.jpg"]] "u" "bags"
        (JudgeOutcome.response "Not Pass") = ("Not Pass", 0) :=
  ⟨(claim_C1_judge_verdict_mapping [FsEntry.dir "bags" ["ref.jpg"]] "u" "bags" " Pass "
      (by decide)).1.mpr (by decide),
   (claim_C1_judge_verdict_mapping [FsEntry.dir "bags" ["ref.jpg"]] "u" "bags" "Not Pass"
      (by decide)).2 (by decide)⟩

/-- C6: when the category's reference-image list is absent from the mapping
or empty, the judge returns the missing-reference `Error` result with
confidence 0 for every possible judgment-service outcome — in particular the
result does not depend on the service, which is therefore never consulted. -/
theorem claim_C6_missing_reference (fs : List FsEntry)
    (image_url product_category : String)
    (h : ((load_reference_images fs).lookup product_category).getD [] = []) :
    ∀ svc : JudgeOutcome,
      compare_with_reference fs image_url product_category svc =
        ("Error: No reference images found for this category", 0) := by
  intro svc
  simp only [compare_with_reference]
  rw [if_pos (by simp [List.isEmpty_iff, h])]

/-- Witness for C6: category `"shoes"` absent from an empty reference store. -/
theorem claim_C6_witness :
    compare_with_reference [] "u" "shoes" (JudgeOutcome.response "Pass") =
      ("Error: No reference images found for this category", 0) :=
  claim_C6_missing_reference [] "u" "shoes" (by decide) (JudgeOutcome.response "Pass")

/-- C2: a judgment-service exception at batch position `j` is absorbed inside
the judge: the batch result still has one row per image, the failed image's
row is `("Error", 0)`, and every position's row (in particular every
subsequent one) is the judge of that image alone, unaffected by the failure. -/
theorem claim_C2_exception_absorbed (product_category : String)
    (fsAt : Nat → List FsEntry) (svcAt : Nat → JudgeOutcome)
    (images : List String) (j : Nat) (emsg : String) (d : Row)
    (hj : j < images.length)
    (hex : svcAt j = JudgeOutcome.exception emsg)
    (href : ((load_reference_images (fsAt j)).lookup product_category).getD [] ≠ []) :
    (judgeAll product_category fsAt svcAt 0 images).length = images.length ∧
    (judgeAll product_category fsAt svcAt 0 images).getD j d =
      { image_url := cdnUrl (images.getD j ""),
        classification := "Error", confidence := 0 } ∧
    ∀ k, k < images.length →
      (judgeAll product_category fsAt svcAt 0 images).getD k d =
        mkRow (fsAt k) product_category (svcAt k) (images.getD k "") := by
  have hni : ¬(((load_reference_images (fsAt j)).lookup product_category).getD []).isEmpty = true := by
    simpa [List.isEmpty_iff] using href
  refine ⟨judgeAll_length _ _ _ 0 images, ?_, ?_⟩
  · have h := judgeAll_getD product_category fsAt svcAt d images 0 j hj
    rw [Nat.zero_add] at h
    rw [h, hex]
    simp only [mkRow, compare_with_reference, if_neg hni]
  · intro k hk
    have h := judgeAll_getD product_category fsAt svcAt d images 0 k hk
    rwa [Nat.zero_add] at h

/-- Witness for C2: two images, the service raising on the first and
answering `"Pass"` on the second; the second image is still judged. -/
theorem claim_C2_witness :
    (judgeAll "bags" (fun _ => [FsEntry.dir "bags" ["ref.jpg"]])
        (fun k => if k = 0 then JudgeOutcome.exception "boom" else JudgeOutcome.response "Pass")
        0 ["A", "B"]).length = 2 ∧
    (judgeAll "bags" (fun _ => [FsEntry.dir "bags" ["ref.jpg"]])
        (fun k => if k = 0 then JudgeOutcome.exception "boom" else JudgeOutcome.response "Pass")
        0 ["A", "B"]).getD 0 { image_url := "", classification := "", confidence := 0 } =
      { image_url := cdnUrl "A", classification := "Error", confidence := 0 } ∧
    (judgeAll "bags" (fun _ => [FsEntry.dir "bags" ["ref.jpg"]])
        (fun k => if k = 0 then JudgeOutcome.exception "boom" else JudgeOutcome.response "Pass")
        0 ["A", "B"]).getD 1 { image_url := "", classification := "", confidence := 0 } =
      mkRow [FsEntry.dir "bags" ["ref.jpg"]] "bags" (JudgeOutcome.response "Pass") "B" := by
  have h := claim_C2_exception_absorbed "bags"
    (fun _ => [FsEntry.dir "bags" ["ref.jpg"]])
    (fun k => if k = 0 then JudgeOutcome.exception "boom" else JudgeOutcome.response "Pass")
    ["A", "B"] 0 "boom" { image_url := "", classification := "", confidence := 0 }
    (by decide) (by decide) (by decide)
  refine ⟨?_, ?_, ?_⟩
  · rw [h.1]; rfl
  · simpa using h.2.1
  · simpa using h.2.2 1 (by decide)

/-- C9 (amended): the code re-scans the reference store on every judge
invocation; therefore, when the store does not change during the run, every
invocation observes the same mapping — the one a single startup scan would
have produced (the spec-modelled `judgeAll_startupModel`). -/
theorem claim_C9_constant_store_refines_startup (product_category : String)
    (fs : List FsEntry) (svcAt : Nat → JudgeOutcome) (k : Nat)
    (images : List String) :
    judgeAll product_category (fun _ => fs) svcAt k images =
      judgeAll_startupModel product_category (load_reference_images fs) svcAt k images :=
  judgeAll_startup_eq product_category fs svcAt k images

/-- C3 (amended): the bootstrap GET's response is never inspected — any
status/body leaves the outcome unchanged — but a *raised* exception during
the bootstrap GET is caught by the same top-level handlers as an API-call
failure and surfaced as the request's error, aborting the run. -/
theorem claim_C3_bootstrap_behavior (product_url product_category : String)
    (api : HttpOutcome (Nat × Json)) (fsAt : Nat → List FsEntry)
    (svcAt : Nat → JudgeOutcome) :
    (∀ r1 r2 : Nat × String,
      scrape_shopee_reviews product_url product_category (HttpOutcome.ok r1) api fsAt svcAt =
        scrape_shopee_reviews product_url product_category (HttpOutcome.ok r2) api fsAt svcAt) ∧
    (∀ pr, parseListingUrl product_url = Except.ok pr →
      scrape_shopee_reviews product_url product_category HttpOutcome.timeout api fsAt svcAt =
        some ("Error: Request timed out. Please try again.", none) ∧
      ∀ e, scrape_shopee_reviews product_url product_category
          (HttpOutcome.requestError e) api fsAt svcAt =
        some ("Error: Failed to fetch data: " ++ e, none)) := by
  constructor
  · intro r1 r2
    cases hp : parseListingUrl product_url with
    | error msg => simp [scrape_shopee_reviews, hp]
    | ok ids => simp [scrape_shopee_reviews, hp]
  · intro pr hpr
    refine ⟨?_, ?_⟩
    · simp [scrape_shopee_reviews, hpr]
    · intro e
      simp [scrape_shopee_reviews, hpr]

/-- Witness for C3 (amended): bootstrap responses with different statuses and
bodies give identical results, while bootstrap exceptions surface as errors. -/
theorem claim_C3_witness :
    scrape_shopee_reviews "i.1.2" "bags" HttpOutcome.timeout
        (HttpOutcome.ok (200, Json.obj [])) (fun _ => [])
        (fun _ => JudgeOutcome.response "Pass") =
      some ("Error: Request timed out. Please try again.", none) ∧
    scrape_shopee_reviews "i.1.2" "bags" (HttpOutcome.requestError "conn refused")
        (HttpOutcome.ok (200, Json.obj [])) (fun _ => [])
        (fun _ => JudgeOutcome.response "Pass") =
      some ("Error: Failed to fetch data: conn refused", none) ∧
    scrape_shopee_reviews "i.1.2" "bags" (HttpOutcome.ok (200, "a"))
        (HttpOutcome.ok (200, Json.obj [])) (fun _ => [])
        (fun _ => JudgeOutcome.response "Pass") =
      scrape_shopee_reviews "i.1.2" "bags" (HttpOutcome.ok (404, "b"))
        (HttpOutcome.ok (200, Json.obj [])) (fun _ => [])
        (fun _ => JudgeOutcome.response "Pass") := by
  have h := claim_C3_bootstrap_behavior "i.1.2" "bags" (HttpOutcome.ok (200, Json.obj []))
    (fun _ => []) (fun _ => JudgeOutcome.response "Pass")
  have h2 := h.2 ("1", "2") rfl
  exact ⟨h2.1, h2.2 "conn refused", h.1 (200, "a") (404, "b")⟩

/-- Counterexample to C3 as stated: a raised error in the preliminary
cookie-bootstrap GET *is* fatal and *is* surfaced as the request's error,
even though the subsequent API call would have succeeded and produced a full
report (second conjunct: same inputs with a successful bootstrap). -/
theorem claim_C3_counterexample :
    scrape_shopee_reviews "i.1.2" "bags" HttpOutcome.timeout
        (HttpOutcome.ok (200, Json.obj [("data", Json.obj [("product_info",
          Json.obj [("images", Json.arr ["A"])])])]))
        (fun _ => [FsEntry.dir "bags" ["ref.jpg"]])
        (fun _ => JudgeOutcome.response "Pass") =
      some ("Error: Request timed out. Please try again.", none) ∧
    scrape_shopee_reviews "i.1.2" "bags" (HttpOutcome.ok (200, "cookies"))
        (HttpOutcome.ok (200, Json.obj [("data", Json.obj [("product_info",
          Json.obj [("images", Json.arr ["A"])])])]))
        (fun _ => [FsEntry.dir "bags" ["ref.jpg"]])
        (fun _ => JudgeOutcome.response "Pass") =
      some (mkSummary 1 1, some "https://cf.shopee.co.id/file/A") :=
  ⟨by decide, by decide⟩

/-- C5: when the fetch succeeds (HTTP 200) but the body yields an empty image
list — including a body missing the `data.product_info.images` path, which
extracts to `[]` — the pipeline fails with the no-images error.  The result
is the same for *every* reference store and judgment-service oracle: the
judgment service is invoked zero times and no report rows are produced. -/
theorem claim_C5_no_images (product_url product_category : String)
    (pr : String × String) (r : Nat × String) (body : Json)
    (h1 : parseListingUrl product_url = Except.ok pr)
    (h2 : extract_images body = some []) :
    ∀ (fsAt : Nat → List FsEntry) (svcAt : Nat → JudgeOutcome),
      scrape_shopee_reviews product_url product_category (HttpOutcome.ok r)
          (HttpOutcome.ok (200, body)) fsAt svcAt =
        some ("Error: No product images found.", none) := by
  intro fsAt svcAt
  simp [scrape_shopee_reviews, h1, h2]

/-- Witness for C5: a body with no `data` key extracts to the empty image
list and the pipeline reports the no-images error. -/
theorem claim_C5_witness :
    extract_images (Json.obj []) = some [] ∧
    scrape_shopee_reviews "i.1.2" "bags" (HttpOutcome.ok (200, "cookies"))
        (HttpOutcome.ok (200, Json.obj [])) (fun _ => [FsEntry.dir "bags" ["ref.jpg"]])
        (fun _ => JudgeOutcome.response "Pass") =
      some ("Error: No product images found.", none) :=
  ⟨rfl, claim_C5_no_images "i.1.2" "bags" ("1", "2") (200, "cookies") (Json.obj [])
    rfl rfl (fun _ => [FsEntry.dir "bags" ["ref.jpg"]]) (fun _ => JudgeOutcome.response "Pass")⟩

/-- C7: on a successful run over a non-empty image list, the summary is built
from `passCount` = the number of result rows whose classification is exactly
`"Pass"` (so `Error` rows count as non-authentic), `failCount` =
`totalImages - passCount` = the number of rows whose classification is not
`"Pass"`, and the representative sample image URL is the CDN URL of the
first image in the listing's native order. -/
theorem claim_C7_report_aggregation (product_url product_category : String)
    (pr : String × String) (r : Nat × String) (body : Json)
    (first : String) (rest : List String)
    (fsAt : Nat → List FsEntry) (svcAt : Nat → JudgeOutcome)
    (h1 : parseListingUrl product_url = Except.ok pr)
    (h2 : extract_images body = some (first :: rest)) :
    scrape_shopee_reviews product_url product_category (HttpOutcome.ok r)
        (HttpOutcome.ok (200, body)) fsAt svcAt =
      some (mkSummary (first :: rest).length
              ((judgeAll product_category fsAt svcAt 0 (first :: rest)).filter
                (fun row => row.classification == "Pass")).length,
            some (cdnUrl first)) ∧
    (judgeAll product_category fsAt svcAt 0 (first :: rest)).length =
      (first :: rest).length ∧
    (first :: rest).length -
        ((judgeAll product_category fsAt svcAt 0 (first :: rest)).filter
          (fun row => row.classification == "Pass")).length =
      ((judgeAll product_category fsAt svcAt 0 (first :: rest)).filter
        (fun row => !(row.classification == "Pass"))).length := by
  have hlen := judgeAll_length product_category fsAt svcAt 0 (first :: rest)
  refine ⟨?_, hlen, ?_⟩
  · simp [scrape_shopee_reviews, h1, h2, hlen]
  · have hpart := length_filter_add_length_not
      (fun row => row.classification == "Pass")
      (judgeAll product_category fsAt svcAt 0 (first :: rest))
    omega

/-- Witness for C7: two images, judged `"Pass"` and `"garbage"` — the report
counts one pass, one fail, and samples the first image's CDN URL. -/
theorem claim_C7_witness :
    scrape_shopee_reviews "i.1.2" "bags" (HttpOutcome.ok (200, "cookies"))
        (HttpOutcome.ok (200, Json.obj [("data", Json.obj [("product_info",
          Json.obj [("images", Json.arr ["A", "B"])])])]))
        (fun _ => [FsEntry.dir "bags" ["ref.jpg"]])
        (fun k => if k = 0 then JudgeOutcome.response "Pass"
                  else JudgeOutcome.response "garbage") =
      some (mkSummary 2 1, some "https://cf.shopee.co.id/file/A") := by
  have h := (claim_C7_report_aggregation "i.1.2" "bags" ("1", "2") (200, "cookies")
    (Json.obj [("data", Json.obj [("product_info",
      Json.obj [("images", Json.arr ["A", "B"])])])])
    "A" ["B"] (fun _ => [FsEntry.dir "bags" ["ref.jpg"]])
    (fun k => if k = 0 then JudgeOutcome.response "Pass"
              else JudgeOutcome.response "garbage") rfl rfl).1
  exact h.trans (by decide)

/-- Counterexample to C9 as stated: with identical images and identical
service outcomes, a reference store that changes between the two judge
invocations yields two different rows — the second invocation re-scanned the
filesystem and observed a different mapping — whereas the spec's
once-at-startup model yields two identical `Pass` rows. -/
theorem claim_C9_counterexample :
    judgeAll "bags" (fun k => if k = 0 then [FsEntry.dir "bags" ["ref.jpg"]] else [])
        (fun _ => JudgeOutcome.response "Pass") 0 ["A", "A"] =
      [{ image_url := "https://cf.shopee.co.id/file/A",
         classification := "Pass", confidence := 1 },
       { image_url := "https://cf.shopee.co.id/file/A",
         classification := "Error: No reference images found for this category",
         confidence := 0 }] ∧
    judgeAll_startupModel "bags" (load_reference_images [FsEntry.dir "bags" ["ref.jpg"]])
        (fun _ => JudgeOutcome.response "Pass") 0 ["A", "A"] =
      [{ image_url := "https://cf.shopee.co.id/file/A",
         classification := "Pass", confidence := 1 },
       { image_url := "https://cf.shopee.co.id/file/A",
         classification := "Pass", confidence := 1 }] := by
  exact ⟨by decide, by decide⟩

/-- C4: the URL parser succeeds exactly on strings containing an
`i.<digits>.<digits>` segment.  Soundness: a returned pair `(s1, s2)` is the
group content of such a segment actually occurring in the URL.
Completeness: if such a segment occurs, the parser returns some pair.
Failure: if no such segment occurs (in particular on empty or blank input,
which contains none), the parser returns an error. -/
theorem claim_C4_parse_listing_url (product_url : String) :
    (∀ s1 s2, parseListingUrl product_url = Except.ok (s1, s2) →
      occursAt product_url.data s1.data s2.data) ∧
    ((∃ d1 d2, occursAt product_url.data d1 d2) →
      ∃ p, parseListingUrl product_url = Except.ok p) ∧
    ((∀ d1 d2, ¬ occursAt product_url.data d1 d2) →
      ∃ msg, parseListingUrl product_url = Except.error msg) := by
  have hsound : ∀ s1 s2, parseListingUrl product_url = Except.ok (s1, s2) →
      occursAt product_url.data s1.data s2.data := by
    intro s1 s2 h
    simp only [parseListingUrl] at h
    split at h
    case isTrue => exact absurd h (by simp)
    case isFalse hblank =>
      split at h
      case h_1 => exact absurd h (by simp)
      case h_2 p hsearch =>
        rw [Except.ok.injEq] at h
        subst h
        obtain ⟨i, hi⟩ := searchShopee_sound hsearch
        obtain ⟨hne1, hne2, hd1, hd2, post, hdrop⟩ := matchAt_sound hi
        refine ⟨product_url.data.take i, post, ?_, hne1, hne2, hd1, hd2⟩
        conv_lhs => rw [← List.take_append_drop i product_url.data, hdrop]
  refine ⟨hsound, ?_, ?_⟩
  · rintro ⟨d1, d2, pre, post, hl, h1, h2, hd1, hd2⟩
    obtain ⟨s1, s2, hm⟩ := matchAt_complete post h1 h2 hd1 hd2
    have hdrop : product_url.data.drop pre.length = 'i' :: '.' :: (d1 ++ '.' :: (d2 ++ post)) := by
      rw [hl]
      exact List.drop_left pre _
    obtain ⟨q, hq⟩ := searchShopee_complete pre.length product_url.data (by rw [hdrop]; exact hm)
    have hiinl : 'i' ∈ product_url.data := by rw [hl]; simp
    have hne : ¬product_url = "" := by
      intro hcon
      rw [hcon] at hiinl
      exact absurd hiinl (List.not_mem_nil _)
    have hstrip : ¬pyStrip product_url = "" := pyStrip_ne_empty hiinl (by decide)
    refine ⟨q, ?_⟩
    simp only [parseListingUrl]
    rw [if_neg (by rintro (hc | hc) <;> [exact hne hc; exact hstrip hc])]
    rw [hq]
  · intro hno
    cases hp : parseListingUrl product_url with
    | error msg => exact ⟨msg, rfl⟩
    | ok p =>
      obtain ⟨s1, s2⟩ := p
      exact absurd (hsound s1 s2 hp) (hno s1.data s2.data)

/-- If a character list contains no `.`, it contains no
`i.<digits>.<digits>` occurrence. -/
theorem no_dot_no_occurrence {l : List Char} (h : '.' ∉ l) :
    ∀ d1 d2, ¬ occursAt l d1 d2 := by
  rintro d1 d2 ⟨pre, post, hl, -, -, -, -⟩
  apply h
  rw [hl]
  simp

/-- Witness for C4: a URL with an `i.84.129` segment parses successfully; a
string with no such segment (`"hello world"`) is rejected with an error. -/
theorem claim_C4_witness :
    (∃ p, parseListingUrl "https://shopee.co.id/product-i.84.129" = Except.ok p) ∧
    (∃ msg, parseListingUrl "hello world" = Except.error msg) :=
  ⟨(claim_C4_parse_listing_url "https://shopee.co.id/product-i.84.129").2.1
      ⟨['8', '4'], ['1', '2', '9'],
       "https://shopee.co.id/product-".data, [], by decide, by decide, by decide,
       by decide, by decide⟩,
   (claim_C4_parse_listing_url "hello world").2.2
      (no_dot_no_occurrence (by decide))⟩

/-- C10: when several `i.<digits>.<digits>` segments occur, the parser
deterministically returns the pair matched at the leftmost matching
position: if the regex matches at offset `i` and at no earlier offset, the
parser returns exactly that match's groups. -/
theorem claim_C10_leftmost_match (product_url : String) (i : Nat)
    (p : String × String)
    (h : matchAt (product_url.data.drop i) = some p)
    (hmin : ∀ j, j < i → matchAt (product_url.data.drop j) = none) :
    parseListingUrl product_url = Except.ok p := by
  have hs := searchShopee_leftmost i product_url.data h hmin
  obtain ⟨-, -, -, -, post, hdrop⟩ := matchAt_sound h
  have hiin : 'i' ∈ product_url.data.drop i := by rw [hdrop]; simp
  have hiinl : 'i' ∈ product_url.data := List.mem_of_mem_drop hiin
  have hne : ¬product_url = "" := by
    intro hcon
    rw [hcon] at hiinl
    exact absurd hiinl (List.not_mem_nil _)
  have hstrip : ¬pyStrip product_url = "" := pyStrip_ne_empty hiinl (by decide)
  simp only [parseListingUrl]
  rw [if_neg (by rintro (hc | hc) <;> [exact hne hc; exact hstrip hc])]
  rw [hs]

/-- Witness for C10: `"xi.1.2-i.3.4"` contains two matches; the parser
returns the leftmost one, `("1", "2")`. -/
theorem claim_C10_witness :
    parseListingUrl "xi.1.2-i.3.4" = Except.ok ("1", "2") :=
  claim_C10_leftmost_match "xi.1.2-i.3.4" 1 ("1", "2") (by decide)
    (fun j hj => by
      have hj0 : j = 0 := Nat.lt_one_iff.mp hj
      subst hj0
      decide)

/-- C8: the reference-library loader returns an empty mapping on an empty
root; a single subdirectory with two image files and one non-image file
yields exactly one category with exactly those two entries; the extension
test is case-insensitive (it depends only on the lower-cased name); and a
category directory with zero recognized images is retained as an empty
entry. -/
theorem claim_C8_loader_behavior :
    load_reference_images [] = [] ∧
    (∀ name a b c, isImage a = true → isImage b = true → isImage c = false →
      load_reference_images [FsEntry.dir name [a, b, c]] =
        [(name, [refPath name a, refPath name b])]) ∧
    (∀ s t, pyLower s = pyLower t → isImage s = isImage t) ∧
    (∀ name files, (∀ f ∈ files, isImage f = false) →
      load_reference_images [FsEntry.dir name files] = [(name, [])]) := by
  refine ⟨rfl, ?_, ?_, ?_⟩
  · intro name a b c ha hb hc
    simp [load_reference_images, List.filter_cons, ha, hb, hc]
  · intro s t h
    simp only [isImage, h]
  · intro name files hall
    have hfil : files.filter isImage = [] := by
      rw [List.filter_eq_nil_iff]
      intro f hf
      simp [hall f hf]
    simp [load_reference_images, hfil]

/-- Witness for C8: concrete listing with `shot1.jpg`, `shot2.JPG` and
`notes.txt`; case-insensitivity at `A.JPG` vs `a.jpg`; and an
image-free category kept as an empty entry. -/
theorem claim_C8_witness :
    load_reference_images [FsEntry.dir "bags" ["shot1.jpg", "shot2.JPG", "notes.txt"]] =
      [("bags", ["reference_images/bags/shot1.jpg", "reference_images/bags/shot2.JPG"])] ∧
    isImage "A.JPG" = isImage "a.jpg" ∧
    load_reference_images [FsEntry.dir "empty" ["readme.txt"]] = [("empty", [])] :=
  ⟨(claim_C8_loader_behavior).2.1 "bags" "shot1.jpg" "shot2.JPG" "notes.txt"
      (by decide) (by decide) (by decide),
   (claim_C8_loader_behavior).2.2.1 "A.JPG" "a.jpg" (by decide),
   (claim_C8_loader_behavior).2.2.2 "empty" ["readme.txt"] (by decide)⟩
